import Mathlib

/-!
Verification of the video-trimmer backend (`src/main.py`).

The service is a FastAPI app with three endpoints.  All substantive work is
delegated to two external tools (`yt_dlp` and `ffmpeg`); the service itself is
request validation, orchestration and file lifecycle management.  We embed the
pure parts of the code directly and model the external-tool interactions by an
explicit environment `Env` describing the outcome of each tool invocation:

* `probe`        — the result of `ydl.extract_info(url, download=False)` inside
                   `get_video_info`;
* `downloadOk`   — the result of `ydl.download([url])` inside
                   `download_and_trim_video`;
* `downloadedFiles` — the listing of the scoped temporary directory after the
                   download step (`os.listdir(temp_dir)`);
* `ffmpegRun`    — the result of `ffmpeg.run(stream, overwrite_output=True, ...)`.

Following the spec's treatment of the tools as black boxes (a "failing
external-tool invocation (simulated)"), a failing tool invocation raises and
writes nothing: the `outputWritten` flag of the orchestration result records
whether `ffmpeg.run` completed successfully, i.e. whether a file exists at the
intended output path afterwards.

Python control flow is embedded as follows: an exception raised and not caught
becomes an `Except.error`; the `with tempfile.TemporaryDirectory()` block
guarantees removal of the temporary directory on every exit path, which the
embedding records in the `tempDirExistsAfter` field (set on each branch exactly
where the corresponding Python control path leaves the `with` block).
-/

namespace VideoTrimmer

/-- Model of Python's builtin `int(str)` digit run: a nonempty digit sequence in
which single underscores may appear between digits (`int("1_0") = 10`, while
`"_1"`, `"1_"`, `"1__0"` all raise `ValueError`).  `acc` carries the value of
the digits already consumed. -/
def pyDigitsAux : List Char → Nat → Option Nat
  | [], acc => some acc
  | '_' :: c :: rest, acc =>
      if c.isDigit then pyDigitsAux rest (10 * acc + (c.toNat - 48)) else none
  | c :: rest, acc =>
      if c.isDigit then pyDigitsAux rest (10 * acc + (c.toNat - 48)) else none

/-- A digit run must start with a digit (not an underscore) and be nonempty. -/
def pyDigits : List Char → Option Nat
  | [] => none
  | c :: rest => if c.isDigit then pyDigitsAux rest (c.toNat - 48) else none

/-- Strip leading and trailing whitespace, as Python's `int` does before
parsing. -/
def pyStrip (cs : List Char) : List Char :=
  ((cs.dropWhile Char.isWhitespace).reverse.dropWhile Char.isWhitespace).reverse

/-- Model of Python's builtin `int : str → int` on a character list:
surrounding whitespace is stripped, an optional single `+`/`-` sign precedes a
digit run.  Returns `none` where Python raises `ValueError`. -/
def pyIntChars (cs : List Char) : Option Int :=
  match pyStrip cs with
  | '+' :: rest => (pyDigits rest).map (fun n => (n : Int))
  | '-' :: rest => (pyDigits rest).map (fun n => -(n : Int))
  | rest => (pyDigits rest).map (fun n => (n : Int))

/-- Model of Python's builtin `int : str → int`. -/
def pyInt (s : String) : Option Int :=
  pyIntChars s.toList

/-- Model of Python's `str.split(sep)` for a single-character separator: split
on every occurrence of `sep`, preserving empty fields (`"a::b".split(':') =
['a', '', 'b']`, `"".split(':') = ['']`). -/
def pySplit (sep : Char) : List Char → List (List Char)
  | [] => [[]]
  | c :: rest =>
      match pySplit sep rest with
      | [] => [[c]]
      | field :: more =>
          if c = sep then [] :: field :: more else (c :: field) :: more

/-- `time_to_seconds` (src/main.py:89-92):
`h, m, s = map(int, time_str.split(':'))` followed by
`return h * 3600 + m * 60 + s`.  The unpacking raises `ValueError` unless the
string splits on `':'` into exactly three fields each accepted by `int`;
`none` models that `ValueError`. -/
def time_to_seconds (time_str : String) : Option Int :=
  match ((pySplit ':' time_str.toList).map String.mk).mapM pyInt with
  | some [h, m, s] => some (h * 3600 + m * 60 + s)
  | _ => none

/-- Metadata dictionary returned by the extraction tool's probe
(`ydl.extract_info(url, download=False)`); each field is `none` when the
corresponding key is absent from the dict. -/
structure Metadata where
  title : Option String
  duration : Option Int
  thumbnail : Option String

/-- Outcome environment for one request: what each external-tool invocation
would do if reached.  `Except.error txt` models the tool raising with message
text `txt`. -/
structure Env where
  probe : Except String Metadata
  downloadOk : Except String Unit
  downloadedFiles : List String
  ffmpegRun : Except String Unit

/-- An HTTP error response (`HTTPException(status_code, detail)`). -/
structure HTTPError where
  status : Nat
  detail : String
deriving DecidableEq

/-- The dict returned by `get_video_info` on success. -/
structure VideoInfo where
  title : String
  duration : Int
  thumbnail : String
deriving DecidableEq

/-- `get_video_info` (src/main.py:94-128): probes metadata and applies the
fallbacks `info.get('title', 'Unknown Title')`, `info.get('duration', 0)`,
`info.get('thumbnail', '')`; if extraction raises, the exception is caught and
re-raised as `HTTPException(400, "Error fetching video info: " + str(e))`. -/
def get_video_info (env : Env) : Except HTTPError VideoInfo :=
  match env.probe with
  | .ok info =>
      .ok { title := info.title.getD "Unknown Title"
            duration := info.duration.getD 0
            thumbnail := info.thumbnail.getD "" }
  | .error e => .error ⟨400, "Error fetching video info: " ++ e⟩

/-- External-tool invocations observable during one trim request, in the order
they are issued. -/
inductive Ev where
  | metadataProbe
  | download
  | ffmpegTrim
deriving DecidableEq

/-- Result of one `download_and_trim_video` call.  `tempDirExistsAfter` records
whether the scoped temporary directory still exists once the call has returned
(the `with tempfile.TemporaryDirectory()` block removes it on each exit path);
`outputWritten` records whether a file exists at the intended output path. -/
structure OrchResult where
  outcome : Except HTTPError Unit
  events : List Ev
  tempDirExistsAfter : Bool
  outputWritten : Bool

/-- `download_and_trim_video` (src/main.py:130-206).  Inside a scoped temporary
directory it (1) runs the download tool, (2) locates the downloaded file by the
fixed prefix `video.` (`next((f for f in os.listdir(temp_dir) if
f.startswith('video.')), None)`; Python's `str.startswith` is modelled by the
character-list prefix test), raising `Exception("Video file not found
after download")` if there is none, (3) re-parses both time bounds, and
(4) runs `ffmpeg` with stream-copy to write the output file.  Any exception in
steps 1-4 is caught and re-raised as `HTTPException(500, "Error processing
video: " + str(e))`.  A failing tool invocation writes nothing (black-box
atomic-failure model of the external tools).  The `ValueError` text in the
re-parse branch is abbreviated; that branch is unreachable from the endpoint,
which has already validated both times. -/
def download_and_trim_video (env : Env) (start_time end_time : String) : OrchResult :=
  match env.downloadOk with
  | .error e =>
      { outcome := .error ⟨500, "Error processing video: " ++ e⟩
        events := [.download], tempDirExistsAfter := false, outputWritten := false }
  | .ok _ =>
      match env.downloadedFiles.find? (fun f => "video.".toList.isPrefixOf f.toList) with
      | none =>
          { outcome := .error ⟨500, "Error processing video: Video file not found after download"⟩
            events := [.download], tempDirExistsAfter := false, outputWritten := false }
      | some _ =>
          match time_to_seconds start_time, time_to_seconds end_time with
          | some _, some _ =>
              match env.ffmpegRun with
              | .ok _ =>
                  { outcome := .ok ()
                    events := [.download, .ffmpegTrim]
                    tempDirExistsAfter := false, outputWritten := true }
              | .error e =>
                  { outcome := .error ⟨500, "Error processing video: " ++ e⟩
                    events := [.download, .ffmpegTrim]
                    tempDirExistsAfter := false, outputWritten := false }
          | _, _ =>
              { outcome := .error ⟨500, "Error processing video: invalid literal for int() with base 10"⟩
                events := [.download], tempDirExistsAfter := false, outputWritten := false }

/-- The value produced by the `trim_video` endpoint: either a `FileResponse`
streaming the output file, or an `HTTPException` response. -/
inductive Resp where
  | fileResponse
  | httpError (status : Nat) (detail : String)
deriving DecidableEq

/-- Result of one `trim_video` endpoint call: the response, the external-tool
invocations issued during the call in order, and whether a file was written at
the output path. -/
structure TrimResult where
  resp : Resp
  events : List Ev
  outputWritten : Bool

/-- The retention pass inlined in `trim_video` (src/main.py:73-80): the output
directory listing (entry name paired with its creation time,
`os.path.getctime`) is sorted by creation time ascending; if more than 10
entries exist, every entry except the last 10 (`files[:-10]`) is deleted.  The
result is the listing that remains.  Python's `sorted` is stable ascending,
matching `List.mergeSort` with a `≤` comparison. -/
def cleanup_old_files (files : List (String × Nat)) : List (String × Nat) :=
  let sorted := files.mergeSort (fun a b => decide (a.2 ≤ b.2))
  if sorted.length > 10 then sorted.drop (sorted.length - 10) else sorted

/-- `trim_video` (src/main.py:40-87), the `POST /api/trim-video` endpoint.
In order: parse both times (`ValueError` → 400 "Invalid time format. Use
HH:MM:SS"); call `get_video_info` (its `HTTPException` propagates); reject
`end_seconds > video_info['duration']` with 400; reject
`start_seconds >= end_seconds` with 400; run `download_and_trim_video` (its
`HTTPException` propagates); return a `FileResponse`.  (The retention pass
between orchestration and response touches only the output directory; it is
modelled separately by `cleanup_old_files`.) -/
def trim_video (env : Env) (start_time end_time : String) : TrimResult :=
  match time_to_seconds start_time, time_to_seconds end_time with
  | some start_seconds, some end_seconds =>
      match get_video_info env with
      | .error e =>
          { resp := .httpError e.status e.detail
            events := [.metadataProbe], outputWritten := false }
      | .ok video_info =>
          if end_seconds > video_info.duration then
            { resp := .httpError 400
                ("End time exceeds video duration (" ++ toString video_info.duration ++ " seconds)")
              events := [.metadataProbe], outputWritten := false }
          else if start_seconds ≥ end_seconds then
            { resp := .httpError 400 "Start time must be before end time"
              events := [.metadataProbe], outputWritten := false }
          else
            let orch := download_and_trim_video env start_time end_time
            match orch.outcome with
            | .error e =>
                { resp := .httpError e.status e.detail
                  events := .metadataProbe :: orch.events
                  outputWritten := orch.outputWritten }
            | .ok _ =>
                { resp := .fileResponse
                  events := .metadataProbe :: orch.events
                  outputWritten := orch.outputWritten }
  | _, _ =>
      { resp := .httpError 400 "Invalid time format. Use HH:MM:SS"
        events := [], outputWritten := false }

/-- A sample 15-entry output-directory listing (name, creation time), used to
instantiate the retention property on concrete data. -/
def priorListing : List (String × Nat) :=
  [("f0", 0), ("f1", 1), ("f2", 2), ("f3", 3), ("f4", 4), ("f5", 5), ("f6", 6),
   ("f7", 7), ("f8", 8), ("f9", 9), ("f10", 10), ("f11", 11), ("f12", 12),
   ("f13", 13), ("f14", 14)]

/-- C2: for every string splitting on `:` into exactly three integer fields the
time parser returns `H*3600 + M*60 + S` (so `"01:02:03"` yields 3723 and
`"00:00:00"` yields 0); every string that does not so split fails
(`InvalidTimeFormat`, i.e. `none`), e.g. `"1:2"` and `"ab:cd:ef"`; and a parse
failure of either bound is surfaced by the trim endpoint as a 400 error. -/
theorem C2_time_to_seconds_contract :
    (∀ (s : String) (h m sec : Int),
        ((pySplit ':' s.toList).map String.mk).mapM pyInt = some [h, m, sec] →
        time_to_seconds s = some (h * 3600 + m * 60 + sec)) ∧
    (∀ (s : String),
        (∀ l : List Int,
            ((pySplit ':' s.toList).map String.mk).mapM pyInt = some l → l.length ≠ 3) →
        time_to_seconds s = none) ∧
    time_to_seconds "01:02:03" = some 3723 ∧
    time_to_seconds "00:00:00" = some 0 ∧
    time_to_seconds "1:2" = none ∧
    time_to_seconds "ab:cd:ef" = none ∧
    (∀ (env : Env) (st et : String),
        time_to_seconds st = none ∨ time_to_seconds et = none →
        (trim_video env st et).resp = .httpError 400 "Invalid time format. Use HH:MM:SS") := by
  refine ⟨?_, ?_, by decide, by decide, by decide, by decide, ?_⟩
  · intro s h m sec heq
    simp only [time_to_seconds]
    rw [heq]
  · intro s hlen
    unfold time_to_seconds
    rcases heq : ((pySplit ':' s.toList).map String.mk).mapM pyInt with _ | l
    · rfl
    · match l, hlen l heq with
      | [], _ => rfl
      | [a], _ => rfl
      | [a, b], _ => rfl
      | [a, b, c], hne => exact absurd rfl hne
      | a :: b :: c :: d :: rest, _ => rfl
  · intro env st et h
    rcases hst : time_to_seconds st with _ | ss <;>
      rcases het : time_to_seconds et with _ | es
    · simp [trim_video, hst, het]
    · simp [trim_video, hst, het]
    · simp [trim_video, hst, het]
    · rcases h with h | h
      · rw [hst] at h; cases h
      · rw [het] at h; cases h

/-- C2 witness: the parser conjuncts instantiated at concrete inputs. -/
theorem C2_time_to_seconds_contract_witness :
    time_to_seconds "02:00:01" = some 7201 ∧
    time_to_seconds "1:2:3:4" = none ∧
    (trim_video ⟨.ok ⟨some "t", some 60, some "th"⟩, .ok (), ["video.mp4"], .ok ()⟩
        "1:2" "00:00:10").resp = .httpError 400 "Invalid time format. Use HH:MM:SS" :=
  ⟨C2_time_to_seconds_contract.1 "02:00:01" 2 0 1 (by decide),
   C2_time_to_seconds_contract.2.1 "1:2:3:4" (by decide),
   C2_time_to_seconds_contract.2.2.2.2.2.2 ⟨.ok ⟨some "t", some 60, some "th"⟩, .ok (), ["video.mp4"], .ok ()⟩
     "1:2" "00:00:10" (.inl (by decide))⟩

/-- C9: the time parser does not reject negative components: `"00:00:-5"`
parses to `-5 = 0*3600 + 0*60 + (-5)` rather than failing, and such a request
passes the trim endpoint's format check (here it proceeds all the way to a
file response). -/
theorem C9_negative_time_components :
    time_to_seconds "00:00:-5" = some (-5) ∧
    (-5 : Int) = 0 * 3600 + 0 * 60 + (-5) ∧
    (trim_video ⟨.ok ⟨some "t", some 3600, some "th"⟩, .ok (), ["video.mp4"], .ok ()⟩
        "00:00:-5" "00:00:10").resp = .fileResponse := by
  refine ⟨by decide, by decide, by decide⟩

/-- C6: the scoped temporary download directory does not persist past the end
of an orchestration call: it is absent after the call returns, on every control
path (success, missing-file failure, either tool failing). -/
theorem C6_temp_dir_removed (env : Env) (start_time end_time : String) :
    (download_and_trim_video env start_time end_time).tempDirExistsAfter = false := by
  unfold download_and_trim_video
  repeat' split
  all_goals rfl

/-- C7: for every probe outcome, `get_video_info` applies the fallbacks
"Unknown Title" / 0 / "" to absent metadata fields, and a raising extraction
tool yields a 400 error wrapping the tool's failure message. -/
theorem C7_video_info_fallbacks :
    (∀ (env : Env) (m : Metadata), env.probe = .ok m →
        get_video_info env =
          .ok ⟨m.title.getD "Unknown Title", m.duration.getD 0, m.thumbnail.getD ""⟩) ∧
    (∀ (env : Env) (e : String), env.probe = .error e →
        get_video_info env = .error ⟨400, "Error fetching video info: " ++ e⟩) := by
  constructor
  · intro env m h
    simp [get_video_info, h]
  · intro env e h
    simp [get_video_info, h]

/-- C7 witness: both conjuncts instantiated at concrete environments. -/
theorem C7_video_info_fallbacks_witness :
    get_video_info ⟨.ok ⟨none, none, none⟩, .ok (), [], .ok ()⟩ =
      .ok ⟨"Unknown Title", 0, ""⟩ ∧
    get_video_info ⟨.error "HTTP 403", .ok (), [], .ok ()⟩ =
      .error ⟨400, "Error fetching video info: HTTP 403"⟩ :=
  ⟨C7_video_info_fallbacks.1 ⟨.ok ⟨none, none, none⟩, .ok (), [], .ok ()⟩
      ⟨none, none, none⟩ rfl,
   C7_video_info_fallbacks.2 ⟨.error "HTTP 403", .ok (), [], .ok ()⟩ "HTTP 403" rfl⟩

/-- Helper: `get_video_info` fails only with status 400, wrapping the probe's
message. -/
theorem get_video_info_error (env : Env) (e : HTTPError)
    (h : get_video_info env = .error e) :
    e.status = 400 := by
  unfold get_video_info at h
  cases hq : env.probe with
  | ok m => rw [hq] at h; cases h
  | error msg => rw [hq] at h; cases h; rfl

/-- C8: if the download tool reports success but no file in the scoped
temporary directory starts with the fixed base-name prefix `video.`, the
orchestrator fails with the missing-file error (surfaced as a 500 processing
error) and does not proceed to the trim step. -/
theorem C8_downloaded_file_missing (env : Env) (st et : String)
    (hdl : env.downloadOk = .ok ())
    (hmiss : ∀ f ∈ env.downloadedFiles, "video.".toList.isPrefixOf f.toList = false) :
    (download_and_trim_video env st et).outcome =
      .error ⟨500, "Error processing video: Video file not found after download"⟩ ∧
    Ev.ffmpegTrim ∉ (download_and_trim_video env st et).events := by
  have hfind : env.downloadedFiles.find? (fun f => "video.".toList.isPrefixOf f.toList) = none :=
    List.find?_eq_none.mpr (fun f hf => by rw [hmiss f hf]; exact Bool.false_ne_true)
  simp only [download_and_trim_video, hdl, hfind]
  exact ⟨trivial, by decide⟩

/-- C8 witness: a run whose download "succeeds" but leaves only `audio.m4a`. -/
theorem C8_downloaded_file_missing_witness :
    (download_and_trim_video ⟨.ok ⟨some "t", some 60, some "th"⟩, .ok (), ["audio.m4a"], .ok ()⟩
        "00:00:01" "00:00:02").outcome =
      .error ⟨500, "Error processing video: Video file not found after download"⟩ ∧
    Ev.ffmpegTrim ∉ (download_and_trim_video
        ⟨.ok ⟨some "t", some 60, some "th"⟩, .ok (), ["audio.m4a"], .ok ()⟩
        "00:00:01" "00:00:02").events :=
  C8_downloaded_file_missing _ "00:00:01" "00:00:02" rfl (by decide)

/-- C1 counterexample: a well-formed request with `start = end = "00:00:05"`
is indeed rejected with a 400 error, but the extraction tool's metadata probe
has already been invoked at that point — refuting "before any external tool
... is invoked". -/
theorem C1_counterexample :
    time_to_seconds "00:00:05" = some 5 ∧
    (trim_video ⟨.ok ⟨some "t", some 3600, some "th"⟩, .ok (), ["video.mp4"], .ok ()⟩
        "00:00:05" "00:00:05").resp = .httpError 400 "Start time must be before end time" ∧
    Ev.metadataProbe ∈ (trim_video ⟨.ok ⟨some "t", some 3600, some "th"⟩, .ok (), ["video.mp4"], .ok ()⟩
        "00:00:05" "00:00:05").events := by
  decide

/-- C1 amended: for every trim request with well-formed times and
`start_seconds ≥ end_seconds`, the endpoint rejects with a 400 error and
neither the download nor the trim tool is ever invoked (the metadata probe,
however, is invoked before the rejection). -/
theorem C1_range_rejected_before_download (env : Env) (st et : String) (ss es : Int)
    (hst : time_to_seconds st = some ss) (het : time_to_seconds et = some es)
    (hge : ss ≥ es) :
    (∃ d, (trim_video env st et).resp = .httpError 400 d) ∧
    Ev.download ∉ (trim_video env st et).events ∧
    Ev.ffmpegTrim ∉ (trim_video env st et).events := by
  unfold trim_video
  rw [hst, het]
  rcases hgvi : get_video_info env with e | vi
  · have h400 := get_video_info_error env e hgvi
    simp [h400]
  · by_cases hdur : es > vi.duration
    · simp [hdur]
    · simp [hdur, hge]

/-- C1 amended witness: the rejection at `start = end = "00:01:00"`. -/
theorem C1_range_rejected_before_download_witness :
    (∃ d, (trim_video ⟨.ok ⟨some "t", some 3600, some "th"⟩, .ok (), ["video.mp4"], .ok ()⟩
        "00:01:00" "00:01:00").resp = .httpError 400 d) ∧
    Ev.download ∉ (trim_video ⟨.ok ⟨some "t", some 3600, some "th"⟩, .ok (), ["video.mp4"], .ok ()⟩
        "00:01:00" "00:01:00").events ∧
    Ev.ffmpegTrim ∉ (trim_video ⟨.ok ⟨some "t", some 3600, some "th"⟩, .ok (), ["video.mp4"], .ok ()⟩
        "00:01:00" "00:01:00").events :=
  C1_range_rejected_before_download _ "00:01:00" "00:01:00" 60 60 (by decide) (by decide)
    (by decide)

/-- C5: for every well-formed request whose end time in seconds exceeds the
source video's reported duration, the endpoint returns a 400 error and the
download step is never invoked. -/
theorem C5_end_beyond_duration_rejected (env : Env) (st et : String) (ss es : Int)
    (m : Metadata) (hst : time_to_seconds st = some ss) (het : time_to_seconds et = some es)
    (hp : env.probe = .ok m) (hdur : es > m.duration.getD 0) :
    (trim_video env st et).resp =
      .httpError 400
        ("End time exceeds video duration (" ++ toString (m.duration.getD 0) ++ " seconds)") ∧
    Ev.download ∉ (trim_video env st et).events := by
  unfold trim_video
  rw [hst, het]
  simp [get_video_info, hp, hdur]

/-- C5 witness: end bound `"01:30:00"` against a 3600-second video. -/
theorem C5_end_beyond_duration_rejected_witness :
    (trim_video ⟨.ok ⟨some "t", some 3600, some "th"⟩, .ok (), ["video.mp4"], .ok ()⟩
        "00:00:00" "01:30:00").resp =
      .httpError 400
        ("End time exceeds video duration (" ++ toString ((some (3600 : Int)).getD 0) ++ " seconds)") ∧
    Ev.download ∉ (trim_video ⟨.ok ⟨some "t", some 3600, some "th"⟩, .ok (), ["video.mp4"], .ok ()⟩
        "00:00:00" "01:30:00").events :=
  C5_end_beyond_duration_rejected _ "00:00:00" "01:30:00" 0 5400 ⟨some "t", some 3600, some "th"⟩
    (by decide) (by decide) rfl (by decide)

/-- C10: when the probe's metadata lacks a duration (so the fallback 0
applies), every well-formed request with non-negative times is rejected with a
400 error — either the duration check or the range check fires — and the
download step is never reached. -/
theorem C10_zero_duration_always_rejected (env : Env) (st et : String) (ss es : Int)
    (m : Metadata) (hp : env.probe = .ok m) (hdur : m.duration = none)
    (hst : time_to_seconds st = some ss) (het : time_to_seconds et = some es)
    (hss : 0 ≤ ss) (hes : 0 ≤ es) :
    (∃ d, (trim_video env st et).resp = .httpError 400 d) ∧
    Ev.download ∉ (trim_video env st et).events := by
  unfold trim_video
  rw [hst, het]
  by_cases h : es > 0
  · simp [get_video_info, hp, hdur, h]
  · have hes0 : es = 0 := le_antisymm (not_lt.mp h) hes
    have hge : ss ≥ es := hes0 ▸ hss
    simp [get_video_info, hp, hdur, h, hge]

/-- C10 witness: a video whose metadata lacks `duration`, with times
`00:00:00`–`00:00:10`. -/
theorem C10_zero_duration_always_rejected_witness :
    (∃ d, (trim_video ⟨.ok ⟨some "t", none, some "th"⟩, .ok (), ["video.mp4"], .ok ()⟩
        "00:00:00" "00:00:10").resp = .httpError 400 d) ∧
    Ev.download ∉ (trim_video ⟨.ok ⟨some "t", none, some "th"⟩, .ok (), ["video.mp4"], .ok ()⟩
        "00:00:00" "00:00:10").events :=
  C10_zero_duration_always_rejected _ "00:00:00" "00:00:10" 0 10 ⟨some "t", none, some "th"⟩
    rfl rfl (by decide) (by decide) (by decide) (by decide)

/-- Helper: every orchestration run either succeeds having written the output
file, or fails with a 500 error having written nothing. -/
theorem orch_outcome_cases (env : Env) (st et : String) :
    ((download_and_trim_video env st et).outcome = .ok () ∧
      (download_and_trim_video env st et).outputWritten = true) ∨
    (∃ e, (download_and_trim_video env st et).outcome = .error e ∧ e.status = 500 ∧
      (download_and_trim_video env st et).outputWritten = false) := by
  unfold download_and_trim_video
  repeat' split
  all_goals first
    | exact .inl ⟨rfl, rfl⟩
    | exact .inr ⟨_, rfl, rfl, rfl⟩

/-- Helper: if the orchestration failed, the endpoint returns no file response
and nothing was written at the output path. -/
theorem trim_of_orch_error (env : Env) (st et : String) (e : HTTPError)
    (h : (download_and_trim_video env st et).outcome = .error e) :
    (trim_video env st et).resp ≠ .fileResponse ∧
    (trim_video env st et).outputWritten = false := by
  have hw : (download_and_trim_video env st et).outputWritten = false := by
    rcases orch_outcome_cases env st et with ⟨hok, _⟩ | ⟨e', _, _, hw⟩
    · rw [h] at hok; cases hok
    · exact hw
  unfold trim_video
  rcases hst : time_to_seconds st with _ | ss <;>
    rcases het : time_to_seconds et with _ | es
  · simp
  · simp
  · simp
  · rcases hgvi : get_video_info env with e' | vi
    · simp
    · by_cases h1 : es > vi.duration
      · simp [h1]
      · by_cases h2 : ss ≥ es
        · simp [h1, h2]
        · simp only [h1, h2, if_false, if_neg]
          rw [h]
          simp [hw]

/-- C4: whenever an external-tool invocation (the download, or the trim once
reached) fails with message `msg`, the orchestration fails with a 500
`VideoProcessingError` carrying `msg`, no file is written at the intended
output path, and the endpoint returns no file response. -/
theorem C4_tool_failure_no_partial_output (env : Env) (st et : String) (msg : String)
    (h : env.downloadOk = .error msg ∨
         (Ev.ffmpegTrim ∈ (download_and_trim_video env st et).events ∧
          env.ffmpegRun = .error msg)) :
    (download_and_trim_video env st et).outcome =
      .error ⟨500, "Error processing video: " ++ msg⟩ ∧
    (download_and_trim_video env st et).outputWritten = false ∧
    (trim_video env st et).resp ≠ .fileResponse ∧
    (trim_video env st et).outputWritten = false := by
  have hout : (download_and_trim_video env st et).outcome =
      .error ⟨500, "Error processing video: " ++ msg⟩ ∧
      (download_and_trim_video env st et).outputWritten = false := by
    rcases h with hdl | ⟨hev, hff⟩
    · simp [download_and_trim_video, hdl]
    · rcases henv : env.downloadOk with e' | u
      · rw [show (download_and_trim_video env st et).events = [Ev.download] from by
            simp only [download_and_trim_video, henv]] at hev
        simp at hev
      · cases u
        rcases hfind : env.downloadedFiles.find?
            (fun f => "video.".toList.isPrefixOf f.toList) with _ | f
        · rw [show (download_and_trim_video env st et).events = [Ev.download] from by
            simp only [download_and_trim_video, henv, hfind]] at hev
          simp at hev
        · rcases hst : time_to_seconds st with _ | ss <;>
            rcases het : time_to_seconds et with _ | es
          · rw [show (download_and_trim_video env st et).events = [Ev.download] from by
              simp only [download_and_trim_video, henv, hfind, hst]] at hev
            simp at hev
          · rw [show (download_and_trim_video env st et).events = [Ev.download] from by
              simp only [download_and_trim_video, henv, hfind, hst]] at hev
            simp at hev
          · rw [show (download_and_trim_video env st et).events = [Ev.download] from by
              simp only [download_and_trim_video, henv, hfind, hst, het]] at hev
            simp at hev
          · simp only [download_and_trim_video, henv, hfind, hst, het, hff]
            exact ⟨trivial, trivial⟩
  refine ⟨hout.1, hout.2, ?_, ?_⟩
  · exact (trim_of_orch_error env st et _ hout.1).1
  · exact (trim_of_orch_error env st et _ hout.1).2

/-- C4 witness: a run whose download tool fails with "network unreachable". -/
theorem C4_tool_failure_no_partial_output_witness :
    (download_and_trim_video ⟨.ok ⟨some "t", some 60, some "th"⟩, .error "network unreachable",
        [], .ok ()⟩ "00:00:01" "00:00:02").outcome =
      .error ⟨500, "Error processing video: " ++ "network unreachable"⟩ ∧
    (download_and_trim_video ⟨.ok ⟨some "t", some 60, some "th"⟩, .error "network unreachable",
        [], .ok ()⟩ "00:00:01" "00:00:02").outputWritten = false ∧
    (trim_video ⟨.ok ⟨some "t", some 60, some "th"⟩, .error "network unreachable",
        [], .ok ()⟩ "00:00:01" "00:00:02").resp ≠ .fileResponse ∧
    (trim_video ⟨.ok ⟨some "t", some 60, some "th"⟩, .error "network unreachable",
        [], .ok ()⟩ "00:00:01" "00:00:02").outputWritten = false :=
  C4_tool_failure_no_partial_output _ "00:00:01" "00:00:02" "network unreachable" (.inl rfl)

/-- Helper: general retention property.  For any output-directory listing with
more than 10 entries and pairwise-distinct creation times, the retention pass
keeps exactly 10 entries, all drawn from the listing, and every entry it
deletes is older than every entry it keeps. -/
theorem cleanup_old_files_spec (files : List (String × Nat))
    (hbig : 10 < files.length)
    (hdist : files.Pairwise (fun a b => a.2 ≠ b.2)) :
    (cleanup_old_files files).length = 10 ∧
    (∀ f ∈ cleanup_old_files files, f ∈ files) ∧
    (∀ g ∈ files, g ∉ cleanup_old_files files →
      ∀ f ∈ cleanup_old_files files, g.2 < f.2) := by
  have hperm : List.Perm (files.mergeSort (fun a b => decide (a.2 ≤ b.2))) files :=
    List.mergeSort_perm files _
  have hsortle : (files.mergeSort (fun a b => decide (a.2 ≤ b.2))).Pairwise
      (fun a b => a.2 ≤ b.2) := by
    have h : (files.mergeSort (fun a b : String × Nat => decide (a.2 ≤ b.2))).Pairwise
        (fun a b => decide (a.2 ≤ b.2) = true) :=
      List.sorted_mergeSort
        (fun a b c hab hbc => by
          simp only [decide_eq_true_eq] at *
          omega)
        (fun a b => by
          simp only [Bool.or_eq_true, decide_eq_true_eq]
          omega)
        files
    exact h.imp (fun hab => by simpa using hab)
  generalize hs : files.mergeSort (fun a b => decide (a.2 ≤ b.2)) = sorted
    at hperm hsortle
  have hlens : sorted.length = files.length := hperm.length_eq
  have hbigs : 10 < sorted.length := by rw [hlens]; exact hbig
  have hcleanup : cleanup_old_files files = sorted.drop (sorted.length - 10) := by
    unfold cleanup_old_files
    rw [hs]
    simp only []
    rw [if_pos hbigs]
  have hdists : sorted.Pairwise (fun a b => a.2 ≠ b.2) :=
    (List.Perm.pairwise_iff (fun h => h.symm) hperm).mpr hdist
  have hlt : sorted.Pairwise (fun a b => a.2 < b.2) :=
    (hsortle.and hdists).imp (fun h => lt_of_le_of_ne h.1 h.2)
  have hcross : ∀ a ∈ sorted.take (sorted.length - 10),
      ∀ b ∈ sorted.drop (sorted.length - 10), a.2 < b.2 := by
    have h := hlt
    rw [← List.take_append_drop (sorted.length - 10) sorted, List.pairwise_append] at h
    exact h.2.2
  have hsub : ∀ f ∈ cleanup_old_files files, f ∈ files := by
    intro f hf
    rw [hcleanup] at hf
    exact hperm.mem_iff.mp (List.mem_of_mem_drop hf)
  refine ⟨?_, hsub, ?_⟩
  · rw [hcleanup, List.length_drop]
    omega
  · intro g hg hgout f hf
    rw [hcleanup] at hgout hf
    have hgs : g ∈ sorted := hperm.mem_iff.mpr hg
    rw [← List.take_append_drop (sorted.length - 10) sorted, List.mem_append] at hgs
    rcases hgs with hgs | hgs
    · exact hcross g hgs f hf
    · exact absurd hgs hgout

/-- C3: after a successful trim, whenever the output directory holds more than
10 entries (creation times pairwise distinct), the retention pass deletes
every entry except the 10 most recently created; in particular, if the
directory held 15 files before the trim and the new output file is newer than
all of them, exactly 10 entries remain — the new file plus the newest of the
prior 15 — and every deleted entry is older than every kept one. -/
theorem C3_retention_keeps_ten_newest :
    (∀ files : List (String × Nat), 10 < files.length →
        files.Pairwise (fun a b => a.2 ≠ b.2) →
        (cleanup_old_files files).length = 10 ∧
        (∀ f ∈ cleanup_old_files files, f ∈ files) ∧
        (∀ g ∈ files, g ∉ cleanup_old_files files →
          ∀ f ∈ cleanup_old_files files, g.2 < f.2)) ∧
    (∀ (prior : List (String × Nat)) (newf : String × Nat),
        prior.length = 15 →
        (∀ p ∈ prior, p.2 < newf.2) →
        prior.Pairwise (fun a b => a.2 ≠ b.2) →
        (cleanup_old_files (prior ++ [newf])).length = 10 ∧
        newf ∈ cleanup_old_files (prior ++ [newf]) ∧
        (∀ f ∈ cleanup_old_files (prior ++ [newf]), f ∈ prior ++ [newf]) ∧
        (∀ g ∈ prior ++ [newf], g ∉ cleanup_old_files (prior ++ [newf]) →
          ∀ f ∈ cleanup_old_files (prior ++ [newf]), g.2 < f.2)) := by
  refine ⟨cleanup_old_files_spec, ?_⟩
  intro prior newf hlen hnew hdist
  have hdistf : (prior ++ [newf]).Pairwise (fun a b => a.2 ≠ b.2) := by
    rw [List.pairwise_append]
    refine ⟨hdist, by simp, ?_⟩
    intro a ha b hb
    simp only [List.mem_singleton] at hb
    subst hb
    exact (hnew a ha).ne
  have hbig : 10 < (prior ++ [newf]).length := by simp [hlen]
  obtain ⟨hlen10, hsub, hdom⟩ := cleanup_old_files_spec (prior ++ [newf]) hbig hdistf
  refine ⟨hlen10, ?_, hsub, hdom⟩
  by_contra hout
  have hne : cleanup_old_files (prior ++ [newf]) ≠ [] := by
    intro hnil
    rw [hnil] at hlen10
    cases hlen10
  rcases List.exists_mem_of_ne_nil _ hne with ⟨f0, hf0⟩
  have hnewmem : newf ∈ prior ++ [newf] := by simp
  have hlt0 : newf.2 < f0.2 := hdom newf hnewmem hout f0 hf0
  have hf0files : f0 ∈ prior ++ [newf] := hsub f0 hf0
  rw [List.mem_append] at hf0files
  rcases hf0files with hf0p | hf0n
  · exact absurd hlt0 (not_lt.mpr (le_of_lt (hnew f0 hf0p)))
  · simp only [List.mem_singleton] at hf0n
    rw [hf0n] at hlt0
    exact absurd hlt0 (lt_irrefl _)

/-- C3 witness: a concrete 15-entry directory with creation times 0..14 plus a
new file created at time 15. -/
theorem C3_retention_keeps_ten_newest_witness :
    (cleanup_old_files (priorListing ++ [("new", 15)])).length = 10 ∧
    ("new", 15) ∈ cleanup_old_files (priorListing ++ [("new", 15)]) ∧
    (∀ f ∈ cleanup_old_files (priorListing ++ [("new", 15)]),
      f ∈ priorListing ++ [("new", 15)]) ∧
    (∀ g ∈ priorListing ++ [("new", 15)],
      g ∉ cleanup_old_files (priorListing ++ [("new", 15)]) →
      ∀ f ∈ cleanup_old_files (priorListing ++ [("new", 15)]), g.2 < f.2) :=
  C3_retention_keeps_ten_newest.2 priorListing ("new", 15) (by decide) (by decide) (by decide)

end VideoTrimmer
